import Mathlib

/-!
Shallow embedding of the creedbackend order/coupon subsystem.

Sources embedded here:
- `src/models/Order.js`, `src/models/Product.js`, `src/models/Coupon.js`
  (the coupon schema and its methods `isCurrentlyValid`, `isValidForUser`,
  `calculateDiscount`);
- `src/controllers/orderController.js` (`src/unnamed/part_004` and
  `src/unnamed/part_005`): `createOrder`, `updateOrderStatus`,
  `updatePaymentStatus`, `cancelOrder`;
- `src/controllers/paymentController.js` (`src/unnamed/part_005`, second
  half): `handlePaymentFailure`;
- `src/controllers/adminController.js` (`src/unnamed/part_000`):
  `updateOrderStatus` (the admin variant);
- `src/controllers/couponController.js`: `updateCoupon`, `validateCoupon`
  (product/category restriction checks), `applyCoupon`.

Conventions: MongoDB ObjectIds are modelled as naturals; JS numbers as `ℚ`
(money/percentages; the spec allows rounding tolerance, the embedding is
exact); timestamps as `ℤ`; the product collection as an association list
keyed by id (`findByIdAndUpdate` with `$inc` maps over it and is a no-op on
a missing id, as in MongoDB).  Fallible handlers return `Except String`,
the error string being the `message` of the JSON error response.
-/

namespace Creed

abbrev ObjId := Nat

/-- Product document (`src/models/Product.js`): the fields the order and
coupon flows read or write.  Schema validators: `price ≥ 0`, `gst` (when
present) in `[0,100]`; `stock ≥ 0`; `soldCount` defaults to 0. -/
structure Product where
  name : String
  price : ℚ
  gst : Option ℚ
  stock : ℤ
  soldCount : ℤ
  status : String
  category : ObjId
  deriving Repr, DecidableEq

/-- The product collection, keyed by id. -/
abbrev ProductMap := List (ObjId × Product)

/-- Lookup `Product.findById`. -/
def findProduct (pm : ProductMap) (pid : ObjId) : Option Product :=
  (pm.find? (fun e => e.1 = pid)).map (·.2)

/-- Update `Product.findByIdAndUpdate(pid, { $inc: { stock: dStock, soldCount: dSold } })`:
a no-op when the id is absent. -/
def incProduct (pm : ProductMap) (pid : ObjId) (dStock dSold : ℤ) : ProductMap :=
  pm.map (fun e =>
    if e.1 = pid then
      (e.1, { e.2 with stock := e.2.stock + dStock, soldCount := e.2.soldCount + dSold })
    else e)

/-- One entry of `coupon.usageHistory`. -/
structure UsageEntry where
  user : ObjId
  order : ObjId
  discountAmount : ℚ
  deriving Repr, DecidableEq

/-- Coupon document (`src/models/Coupon.js`).  `usageLimit = none` means
unlimited; `maximumDiscountAmount = none` means the field is unset. -/
structure Coupon where
  code : String
  type : String
  value : ℚ
  minimumOrderAmount : ℚ
  maximumDiscountAmount : Option ℚ
  usageLimit : Option ℤ
  usageLimitPerUser : ℤ
  usedCount : ℤ
  validFrom : ℤ
  validUntil : ℤ
  applicableProducts : List ObjId
  applicableCategories : List ObjId
  excludedProducts : List ObjId
  excludedCategories : List ObjId
  applicableUsers : List ObjId
  firstTimeUserOnly : Bool
  isActive : Bool
  usageHistory : List UsageEntry
  deriving Repr, DecidableEq

/-- Virtual `isCurrentlyValid` (`Coupon.js`): active, inside the validity
window, and below the global usage limit (`null` limit = unlimited). -/
def Coupon.isCurrentlyValid (c : Coupon) (now : ℤ) : Bool :=
  c.isActive && decide (c.validFrom ≤ now) && decide (now ≤ c.validUntil) &&
    (match c.usageLimit with
     | none => true
     | some lim => decide (c.usedCount < lim))

/-- Method `coupon.isValidForUser(userId, orderAmount, userOrderCount)`
(`Coupon.js`).  Note: it takes no cart, so it checks none of
`applicableProducts` / `applicableCategories` / `excludedProducts` /
`excludedCategories`. -/
def Coupon.isValidForUser (c : Coupon) (userId : ObjId) (orderAmount : ℚ)
    (userOrderCount : ℕ) (now : ℤ) : Bool :=
  if ¬ c.isCurrentlyValid now then false
  else if orderAmount < c.minimumOrderAmount then false
  else if c.firstTimeUserOnly && decide (0 < userOrderCount) then false
  else if c.usageLimitPerUser ≤ (c.usageHistory.filter (fun u => u.user = userId)).length then
    false
  else if ¬ c.applicableUsers.isEmpty then c.applicableUsers.contains userId
  else true

/-- Method `coupon.calculateDiscount(orderAmount)` (`Coupon.js`): percentage
or fixed value, clamped by `maximumDiscountAmount` when that field is truthy
(present and nonzero — the JS guard is `if (this.maximumDiscountAmount && …)`),
then by the order amount (`Math.min`). -/
def Coupon.calculateDiscount (c : Coupon) (orderAmount : ℚ) : ℚ :=
  let discount : ℚ :=
    if c.type = "percentage" then orderAmount * c.value / 100
    else if c.type = "fixed" then c.value
    else 0
  let discount :=
    match c.maximumDiscountAmount with
    | some m => if m ≠ 0 ∧ m < discount then m else discount
    | none => discount
  min discount orderAmount

/-- The coupon subdocument persisted on an order (`Order.js` schema:
`{code, discount, type}`). -/
structure OrderCoupon where
  code : String
  discount : Option ℚ
  type : Option String
  deriving Repr, DecidableEq

/-- One order line (`Order.js` `items` subdocument).  Display-only fields
(`size`, `color`, `sku`, `image`) are omitted; no claim reads them. -/
structure OrderItem where
  product : ObjId
  name : String
  price : ℚ
  quantity : ℕ
  subtotal : ℚ
  deriving Repr, DecidableEq

/-- The `pricing` block of an order (`Order.js`). -/
structure Pricing where
  subtotal : ℚ
  tax : ℚ
  shipping : ℚ
  discount : ℚ
  total : ℚ
  deriving Repr, DecidableEq

/-- The `payment` subdocument of an order. -/
structure PaymentInfo where
  method : String
  status : String
  paidAt : Option ℤ
  deriving Repr, DecidableEq

/-- The `shipping` subdocument of an order (distinct from `pricing.shipping`). -/
structure ShippingInfo where
  method : Option String
  shippedAt : Option ℤ
  deliveredAt : Option ℤ
  deriving Repr, DecidableEq

/-- One entry of `statusHistory`. -/
structure StatusEntry where
  status : String
  note : Option String
  updatedBy : Option ObjId
  timestamp : ℤ
  deriving Repr, DecidableEq

/-- The `cancellation` subdocument; `refundStatus` is set to `"pending"` by
every cancellation site in the controllers. -/
structure Cancellation where
  reason : Option String
  cancelledAt : ℤ
  cancelledBy : Option ObjId
  refundStatus : String
  deriving Repr, DecidableEq

/-- Order document (`src/models/Order.js`): the fields the claims touch. -/
structure Order where
  user : ObjId
  items : List OrderItem
  pricing : Pricing
  coupon : Option OrderCoupon
  payment : PaymentInfo
  shippingInfo : ShippingInfo
  status : String
  statusHistory : List StatusEntry
  cancellation : Option Cancellation
  deriving Repr, DecidableEq

/-- Method `order.addStatusHistory(status, note, updatedBy)` (`Order.js`):
push a history entry and set the current status. -/
def Order.addStatusHistory (o : Order) (status : String) (note : Option String)
    (updatedBy : Option ObjId) (now : ℤ) : Order :=
  { o with
    statusHistory := o.statusHistory ++ [⟨status, note, updatedBy, now⟩],
    status := status }

/-- The stock reservation performed after order creation
(`orderController.createOrder`): for every line,
`$inc: { stock: -quantity, soldCount: quantity }`. -/
def reserveStock (items : List OrderItem) (pm : ProductMap) : ProductMap :=
  items.foldl (fun m it => incProduct m it.product (-(it.quantity : ℤ)) (it.quantity : ℤ)) pm

/-- The stock release performed on cancellation
(`cancelOrder` / `updateOrderStatus` with status `cancelled`): for every
line, `$inc: { stock: quantity, soldCount: -quantity }`. -/
def releaseStock (items : List OrderItem) (pm : ProductMap) : ProductMap :=
  items.foldl (fun m it => incProduct m it.product ((it.quantity : ℤ)) (-(it.quantity : ℤ))) pm

/-- One line of the request cart in `createOrder` (`req.body.items`). -/
structure CartItem where
  product : ObjId
  quantity : ℕ
  deriving Repr, DecidableEq

/-- The validation loop of `orderController.createOrder`
(`src/unnamed/part_005`, lines 51–98): look each product up, reject a
missing / non-active / under-stocked product, accumulate the order lines,
the subtotal, and the per-item GST tax
(`itemTax = itemSubtotal * (product.gst || 0) / 100`). -/
def buildOrderItems (pm : ProductMap) : List CartItem →
    Except String (List OrderItem × ℚ × ℚ)
  | [] => .ok ([], 0, 0)
  | it :: rest =>
    match findProduct pm it.product with
    | none => .error "Product not found"
    | some p =>
      if p.status ≠ "active" then .error "Product is not available"
      else if p.stock < (it.quantity : ℤ) then .error "Insufficient stock"
      else
        let itemSubtotal := p.price * (it.quantity : ℚ)
        let itemTax := itemSubtotal * (p.gst.getD 0) / 100
        match buildOrderItems pm rest with
        | .error e => .error e
        | .ok (items, sub, tax) =>
          .ok (⟨it.product, p.name, p.price, it.quantity, itemSubtotal⟩ :: items,
               itemSubtotal + sub, itemTax + tax)

/-- The coupon commit of `createOrder` (`Coupon.findOneAndUpdate` with
`$inc: { usedCount: 1 }` and a `$push` onto `usageHistory`) — and likewise
the usage bookkeeping of `applyCoupon`. -/
def redeemCommit (c : Coupon) (userId orderId : ObjId) (discountAmount : ℚ) : Coupon :=
  { c with
    usedCount := c.usedCount + 1,
    usageHistory := c.usageHistory ++ [⟨userId, orderId, discountAmount⟩] }

/-- Result of a successful `createOrder`: the created order, the product
collection after the stock updates, and the coupon after the usage commit. -/
structure CreateResult where
  order : Order
  products : ProductMap
  coupon : Option Coupon
  deriving Repr

/-- Coupon phase of `createOrder` (`part_005` lines 100–128): with a coupon
code present, reject unless `isValidForUser` passes, else price the discount
with `calculateDiscount` and build the order's coupon subdocument. -/
def checkCoupon (couponOpt : Option Coupon) (userId : ObjId) (subtotal : ℚ)
    (userOrderCount : ℕ) (now : ℤ) : Except String (ℚ × Option OrderCoupon) :=
  match couponOpt with
  | none => .ok (0, none)
  | some c =>
    if ¬ c.isValidForUser userId subtotal userOrderCount now then
      .error "Coupon is not valid for this order"
    else
      let d := c.calculateDiscount subtotal
      .ok (d, some ⟨c.code, some d, some c.type⟩)

/-- Controller `orderController.createOrder` (`src/unnamed/part_005`, lines 34–245):
validate the cart, check the coupon with `isValidForUser` and price it
with `calculateDiscount`, fix `shipping = 59`, take `tax` as the summed
per-item GST, set `total = subtotal - discount + shipping + tax`, create
the order (`status` defaults to `"pending"`, `payment.status` is
`"pending"` for COD else `"processing"`), then decrement stock / increment
`soldCount` per line and commit the coupon usage.  The coupon argument is
the result of the `Coupon.findOne({code})` lookup; `orderId` the id Mongo
assigns to the new order. -/
def createOrder (pm : ProductMap) (cart : List CartItem) (couponOpt : Option Coupon)
    (userId : ObjId) (userOrderCount : ℕ) (paymentMethod shippingMethod : String)
    (orderId : ObjId) (now : ℤ) : Except String CreateResult :=
  match buildOrderItems pm cart with
  | .error e => .error e
  | .ok (orderItems, subtotal, totalTax) =>
    match checkCoupon couponOpt userId subtotal userOrderCount now with
    | .error e => .error e
    | .ok (discount, couponData) =>
      let shipping : ℚ := 59
      let tax := totalTax
      let total := subtotal - discount + shipping + tax
      let order : Order :=
        { user := userId,
          items := orderItems,
          pricing := ⟨subtotal, tax, shipping, discount, total⟩,
          coupon := couponData,
          payment := ⟨paymentMethod, if paymentMethod = "cod" then "pending" else "processing", none⟩,
          shippingInfo := ⟨some shippingMethod, none, none⟩,
          status := "pending",
          statusHistory := [],
          cancellation := none }
      let pm' := reserveStock orderItems pm
      let coupon' := couponOpt.map (fun c => redeemCommit c userId orderId discount)
      .ok ⟨order, pm', coupon'⟩

/-- Controller `orderController.updateOrderStatus` (`src/unnamed/part_004` lines
334–389 / `part_005` lines 360–415): look the order up, push the new status
onto the history (no transition guard of any kind), then: `shipped` stamps
`shipping.shippedAt`; `delivered` stamps `shipping.deliveredAt` and
unconditionally sets `payment.status = "completed"` and `payment.paidAt`;
`cancelled` records the cancellation block and releases every line's stock
(`$inc: { stock: quantity, soldCount: -quantity }`). -/
def updateOrderStatus (o : Order) (pm : ProductMap) (status : String)
    (note : Option String) (adminId : ObjId) (now : ℤ) : Order × ProductMap :=
  let o := o.addStatusHistory status note (some adminId) now
  if status = "shipped" then
    ({ o with shippingInfo := { o.shippingInfo with shippedAt := some now } }, pm)
  else if status = "delivered" then
    ({ o with
        shippingInfo := { o.shippingInfo with deliveredAt := some now },
        payment := { o.payment with status := "completed", paidAt := some now } }, pm)
  else if status = "cancelled" then
    ({ o with cancellation := some ⟨note, now, some adminId, "pending"⟩ },
     releaseStock o.items pm)
  else (o, pm)

/-- Controller `orderController.cancelOrder` (`part_004` lines 481–541 / `part_005`
lines 507–567): reject when the current status is `shipped`, `delivered` or
`cancelled` (HTTP 400, nothing persisted); otherwise push `cancelled` onto
the history, record the cancellation block, and release every line's stock.
The ownership check (`403` for a non-admin non-owner) is modelled as
already passed; no claim concerns it. -/
def cancelOrder (o : Order) (pm : ProductMap) (reason : Option String)
    (requesterId : ObjId) (now : ℤ) : Except String (Order × ProductMap) :=
  if o.status = "shipped" ∨ o.status = "delivered" ∨ o.status = "cancelled" then
    .error "Order cannot be cancelled at this stage"
  else
    let o := o.addStatusHistory "cancelled" reason (some requesterId) now
    let o := { o with cancellation := some ⟨reason, now, some requesterId, "pending"⟩ }
    .ok (o, releaseStock o.items pm)

/-- Controller `orderController.updatePaymentStatus` (`part_004` lines 396–435 /
`part_005` lines 422–461): set `payment.status`; on `completed` stamp
`paidAt` and, from `pending`, move the order to `confirmed`; on `failed`
push `cancelled` onto the status history.  The function never touches the
product collection — no stock release accompanies the `failed` branch. -/
def updatePaymentStatus (o : Order) (pm : ProductMap) (status : String)
    (adminId : ObjId) (now : ℤ) : Order × ProductMap :=
  let o := { o with payment := { o.payment with status := status } }
  if status = "completed" then
    let o := { o with payment := { o.payment with paidAt := some now } }
    (if o.status = "pending" then
       o.addStatusHistory "confirmed" (some "Payment confirmed") (some adminId) now
     else o, pm)
  else if status = "failed" then
    (o.addStatusHistory "cancelled" (some "Payment failed") (some adminId) now, pm)
  else (o, pm)

/-- Controller `paymentController.handlePaymentFailure` (`src/unnamed/part_005` lines
833–865): mark the payment `failed` and push `cancelled` with a
`Payment failed: …` note.  It performs no product update — the collection
is returned untouched. -/
def handlePaymentFailure (o : Order) (pm : ProductMap) (errDescription : String)
    (userId : ObjId) (now : ℤ) : Order × ProductMap :=
  let o := { o with payment := { o.payment with status := "failed" } }
  (o.addStatusHistory "cancelled" (some ("Payment failed: " ++ errDescription))
     (some userId) now, pm)

/-- Controller `adminController.updateOrderStatus` (`src/unnamed/part_000` lines
851–894): on `delivered`, decrement each line's stock again
(`$inc: { stock: -quantity }`, no `soldCount` change) and complete the
payment only for a COD order not already completed; then push the history
entry (without `updatedBy`) and set the status.  It stamps no
`shipping.deliveredAt`. -/
def adminUpdateOrderStatus (o : Order) (pm : ProductMap) (status : String)
    (note : Option String) (now : ℤ) : Order × ProductMap :=
  let pm' :=
    if status = "delivered" then
      o.items.foldl (fun m it => incProduct m it.product (-(it.quantity : ℤ)) 0) pm
    else pm
  let o :=
    if status = "delivered" ∧ o.payment.method = "cod" ∧ o.payment.status ≠ "completed" then
      { o with payment := { o.payment with status := "completed", paidAt := some now } }
    else o
  let o := { o with
    statusHistory := o.statusHistory ++ [⟨status, note, none, now⟩],
    status := status }
  (o, pm')

/-- Controller `couponController.applyCoupon` (lines 472–551): find the order and an
active coupon, check `isValidForUser(userId, order.subtotal, count)`, then
write `order.coupon`, bump the coupon's `usageHistory` and `usedCount`, and
save both.  `order.subtotal`, `order.shippingCost`, `order.tax` and
`order.totalAmount` are not paths of the Order schema: the reads yield
`undefined` (here the abstract `orderSubtotal` argument stands for that
read) and the `order.totalAmount` write, like the `discountAmount` key of
the coupon subdocument, is dropped by Mongoose on save.  The persisted
order therefore changes only in `coupon` — `pricing` is untouched. -/
def applyCoupon (o : Order) (c : Coupon) (userId orderId : ObjId)
    (orderSubtotal : ℚ) (userOrderCount : ℕ) (now : ℤ) :
    Except String (Order × Coupon) :=
  if ¬ c.isActive then .error "Invalid coupon code"
  else if ¬ c.isValidForUser userId orderSubtotal userOrderCount now then
    .error "Coupon is not valid for this order"
  else
    let discountAmount := c.calculateDiscount orderSubtotal
    let o := { o with coupon := some ⟨c.code, none, none⟩ }
    .ok (o, redeemCommit c userId orderId discountAmount)

/-- The update body of `couponController.updateCoupon`: `req.body` is
passed to `findByIdAndUpdate` wholesale, so any schema field — including
`usedCount` and `usageHistory` — may be set directly.  Only the fields a
claim exercises are modelled; a `none` means the field is absent from the
request body. -/
structure CouponUpdateBody where
  value : Option ℚ := none
  isActive : Option Bool := none
  usageLimit : Option (Option ℤ) := none
  usedCount : Option ℤ := none
  usageHistory : Option (List UsageEntry) := none
  deriving Repr

/-- Controller `couponController.updateCoupon` (lines 168–215): apply the request body
field-by-field via `findByIdAndUpdate`; absent fields keep their value. -/
def updateCoupon (c : Coupon) (b : CouponUpdateBody) : Coupon :=
  { c with
    value := b.value.getD c.value,
    isActive := b.isActive.getD c.isActive,
    usageLimit := b.usageLimit.getD c.usageLimit,
    usedCount := b.usedCount.getD c.usedCount,
    usageHistory := b.usageHistory.getD c.usageHistory }

/-- Controller `couponController.createCoupon` (lines 92–161): the document is created
with the schema defaults `usedCount = 0` and `usageHistory = []`; the
request-supplied fields are irrelevant to the usage invariant, so the claim
only needs the freshly created coupon's usage state. -/
def createCouponUsageState (c : Coupon) : Coupon :=
  { c with usedCount := 0, usageHistory := [] }

/-- One cart product as seen by `couponController.validateCoupon` after the
`Product.find({_id: {$in: productIds}}).populate('category')` lookup: the
product id and its category id. -/
structure CartProduct where
  product : ObjId
  category : ObjId
  deriving Repr, DecidableEq

/-- Inclusion scoping of `couponController.validateCoupon` (lines 347–382):
when `applicableProducts` or `applicableCategories` is non-empty, scan the
cart's products for one whose id is in `applicableProducts` (if non-empty)
or whose category is in `applicableCategories` (if non-empty) — an
inclusive union; report an error when none matches. -/
def applicableErrors (c : Coupon) (cart : List CartProduct) : List String :=
  if ¬ c.applicableProducts.isEmpty ∨ ¬ c.applicableCategories.isEmpty then
    let hasApplicableProducts := cart.any (fun p =>
      (!c.applicableProducts.isEmpty && c.applicableProducts.contains p.product) ||
      (!c.applicableCategories.isEmpty && c.applicableCategories.contains p.category))
    if hasApplicableProducts then []
    else ["This coupon is not applicable to any items in your cart"]
  else []

/-- Exclusion check of `couponController.validateCoupon` (lines 384–411):
when an exclusion list is non-empty, scan the cart's products and report an
error at the first one whose id is in `excludedProducts` or whose category
is in `excludedCategories`.  It runs independently of the inclusion scan,
so its error survives any inclusion match. -/
def excludedErrors (c : Coupon) (cart : List CartProduct) : List String :=
  if ¬ c.excludedProducts.isEmpty ∨ ¬ c.excludedCategories.isEmpty then
    if cart.any (fun p =>
        c.excludedProducts.contains p.product || c.excludedCategories.contains p.category) then
      ["This coupon cannot be applied to an item in your cart"]
    else []
  else []

/-- Product/category restriction errors accumulated by
`couponController.validateCoupon`; the endpoint rejects (HTTP 400) exactly
when its `validationErrors` list — of which these are a sublist — is
non-empty. -/
def restrictionErrors (c : Coupon) (cart : List CartProduct) : List String :=
  applicableErrors c cart ++ excludedErrors c cart

/-- One concurrent redemption request against a coupon: the requester, the
order amount and prior order count it validates with, and the order id and
discount its commit writes. -/
structure RedeemReq where
  user : ObjId
  orderAmount : ℚ
  userOrderCount : ℕ
  orderId : ObjId
  discountAmount : ℚ
  deriving Repr

/-- One atomic database step of a redemption in `createOrder`: the
eligibility read (`Coupon.findOne` + `isValidForUser`, which reads
`usedCount` against `usageLimit`) and, separately, the usage commit
(`Coupon.findOneAndUpdate({code}, {$inc: …, $push: …})`, whose filter does
not re-check the limit). -/
inductive RedeemStep where
  | validate (i : ℕ)
  | commit (i : ℕ)

/-- Shared coupon state plus the per-request validation outcomes of an
interleaved execution. -/
structure SchedState where
  coupon : Coupon
  decided : List (ℕ × Bool)
  succeeded : List ℕ
  deriving Repr

/-- Execute one interleaving step: `validate i` records request `i`'s
eligibility decision against the current coupon state; `commit i` runs the
unconditional increment-and-push for a request that validated
successfully. -/
def runStep (reqs : List RedeemReq) (now : ℤ) (s : SchedState) : RedeemStep → SchedState
  | .validate i =>
    match reqs[i]? with
    | none => s
    | some r =>
      { s with decided := s.decided ++
          [(i, s.coupon.isValidForUser r.user r.orderAmount r.userOrderCount now)] }
  | .commit i =>
    match reqs[i]?, (s.decided.find? (fun d => d.1 = i)).map (·.2) with
    | some r, some true =>
      { s with
        coupon := redeemCommit s.coupon r.user r.orderId r.discountAmount,
        succeeded := s.succeeded ++ [i] }
    | _, _ => s

/-- Run a whole interleaving (a schedule of validate/commit steps) from an
initial coupon state. -/
def runSchedule (reqs : List RedeemReq) (now : ℤ) (c0 : Coupon)
    (sched : List RedeemStep) : SchedState :=
  sched.foldl (runStep reqs now) ⟨c0, [], []⟩

/-- Schema validators of `Product.js` relevant to pricing: `price ≥ 0` and,
when present, `gst ≥ 0`. -/
def Product.pricingOk (p : Product) : Bool :=
  decide (0 ≤ p.price) &&
    (match p.gst with
     | some g => decide (0 ≤ g)
     | none => true)


/-! Concrete documents, used to evaluate the embedded operations at
specific inputs. -/

/-- An active product: price 10, no GST, stock 5, nothing sold. -/
def prodW : Product := ⟨"Tee", 10, none, 5, 0, "active", 100⟩

/-- A one-product collection holding `prodW` under id 1. -/
def pmW : ProductMap := [(1, prodW)]

/-- A cart ordering two units of product 1. -/
def cartW : List CartItem := [⟨1, 2⟩]

/-- The order line `createOrder` builds from `cartW` over `pmW`. -/
def itemW : OrderItem := ⟨1, "Tee", 10, 2, 20⟩

/-- An order over `itemW` with the given status, payment method and payment
status. -/
def mkOrderW (status pmeth pstat : String) : Order :=
  { user := 7, items := [itemW], pricing := ⟨20, 0, 59, 0, 79⟩, coupon := none,
    payment := ⟨pmeth, pstat, none⟩, shippingInfo := ⟨some "standard", none, none⟩,
    status := status, statusHistory := [], cancellation := none }

/-- An active coupon: 10 % off, global usage limit 1, per-user limit 1,
valid over the window [0, 100]. -/
def cpnW : Coupon :=
  { code := "SAVE10", type := "percentage", value := 10, minimumOrderAmount := 0,
    maximumDiscountAmount := none, usageLimit := some 1, usageLimitPerUser := 1,
    usedCount := 0, validFrom := 0, validUntil := 100,
    applicableProducts := [], applicableCategories := [], excludedProducts := [],
    excludedCategories := [], applicableUsers := [], firstTimeUserOnly := false,
    isActive := true, usageHistory := [] }

/-- The coupon `cpnW` with product 1 excluded. -/
def cpnExcl : Coupon := { cpnW with excludedProducts := [1] }

/-- The coupon `cpnW` with product 1 both in the inclusion and the
exclusion list. -/
def cpnInclExcl : Coupon := { cpnW with excludedProducts := [1], applicableProducts := [1] }

/-- The coupon `cpnW` with a negative `maximumDiscountAmount`. -/
def cpnNegMax : Coupon := { cpnW with maximumDiscountAmount := some (-5) }

/-- Two redemption requests, by different users, against the same coupon. -/
def reqsW : List RedeemReq :=
  [⟨7, 100, 0, 50, 10⟩, ⟨8, 100, 0, 51, 10⟩]

/-- The interleaving in which both requests pass eligibility before either
commits. -/
def schedW : List RedeemStep :=
  [.validate 0, .validate 1, .commit 0, .commit 1]

/-! Ledger arithmetic: pointwise description of the stock folds. -/

/-- Signed sum of a per-line weight over the lines of an order that hit a
given product id. -/
def sumOn (a : OrderItem → ℤ) : List OrderItem → ObjId → ℤ
  | [], _ => 0
  | it :: rest, pid => (if it.product = pid then a it else 0) + sumOn a rest pid

/-- Total quantity an order's lines carry for a given product id. -/
def lineQty (items : List OrderItem) (pid : ObjId) : ℤ :=
  sumOn (fun it => (it.quantity : ℤ)) items pid

lemma findProduct_incProduct (pm : ProductMap) (qid : ObjId) (ds dso : ℤ) (pid : ObjId) :
    findProduct (incProduct pm qid ds dso) pid =
      (findProduct pm pid).map (fun p =>
        if pid = qid then
          { p with stock := p.stock + ds, soldCount := p.soldCount + dso }
        else p) := by
  induction pm with
  | nil => simp [findProduct, incProduct]
  | cons e rest ih =>
    by_cases h1 : e.1 = pid
    · subst h1
      by_cases h2 : e.1 = qid
      · subst h2
        simp [findProduct, incProduct, List.find?_cons]
      · simp [findProduct, incProduct, List.find?_cons, h2,
          fun hc : e.1 = qid => h2 hc]
    · have hkey : (if e.1 = qid then
          (e.1, { e.2 with stock := e.2.stock + ds, soldCount := e.2.soldCount + dso })
          else e).1 = e.1 := by
        by_cases h2 : e.1 = qid <;> simp [h2]
      simp only [findProduct, incProduct, List.map_cons, List.find?_cons, hkey, h1] at ih ⊢
      simpa [h1, hkey] using ih

lemma findProduct_incFold (a b : OrderItem → ℤ) (items : List OrderItem) :
    ∀ (pm : ProductMap) (pid : ObjId),
      findProduct (items.foldl (fun m it => incProduct m it.product (a it) (b it)) pm) pid =
        (findProduct pm pid).map (fun p =>
          { p with stock := p.stock + sumOn a items pid,
                   soldCount := p.soldCount + sumOn b items pid }) := by
  induction items with
  | nil =>
    intro pm pid
    cases h : findProduct pm pid <;> simp [sumOn, h]
  | cons it rest ih =>
    intro pm pid
    rw [List.foldl_cons, ih, findProduct_incProduct]
    cases h : findProduct pm pid
    · simp
    · by_cases hpq : pid = it.product
      · subst hpq
        simp [sumOn, add_assoc]
      · have hq : ¬ (it.product = pid) := fun hc => hpq hc.symm
        simp [sumOn, hpq, hq]

lemma sumOn_negQty (items : List OrderItem) (pid : ObjId) :
    sumOn (fun it => -((it.quantity : ℤ))) items pid = -(lineQty items pid) := by
  induction items with
  | nil => simp [sumOn, lineQty]
  | cons it rest ih =>
    by_cases hp : it.product = pid <;>
      simp [sumOn, lineQty, hp, neg_add, ih, add_comm]

lemma findProduct_reserveStock (items : List OrderItem) (pm : ProductMap) (pid : ObjId) :
    findProduct (reserveStock items pm) pid =
      (findProduct pm pid).map (fun p =>
        { p with stock := p.stock - lineQty items pid,
                 soldCount := p.soldCount + lineQty items pid }) := by
  have h := findProduct_incFold (fun it => -((it.quantity : ℤ))) (fun it => ((it.quantity : ℤ)))
    items pm pid
  rw [reserveStock, h, sumOn_negQty]
  cases findProduct pm pid <;> simp [lineQty, sub_eq_add_neg]

lemma findProduct_releaseStock (items : List OrderItem) (pm : ProductMap) (pid : ObjId) :
    findProduct (releaseStock items pm) pid =
      (findProduct pm pid).map (fun p =>
        { p with stock := p.stock + lineQty items pid,
                 soldCount := p.soldCount - lineQty items pid }) := by
  have h := findProduct_incFold (fun it => ((it.quantity : ℤ))) (fun it => -((it.quantity : ℤ)))
    items pm pid
  rw [releaseStock, h, sumOn_negQty]
  cases findProduct pm pid <;> simp [lineQty, sub_eq_add_neg]

/-- Releasing what an order reserved restores every product's stock and
sold count. -/
lemma findProduct_release_reserve (items : List OrderItem) (pm : ProductMap) (pid : ObjId) :
    findProduct (releaseStock items (reserveStock items pm)) pid = findProduct pm pid := by
  rw [findProduct_releaseStock, findProduct_reserveStock]
  cases findProduct pm pid <;> simp

/-! Pricing support lemmas. -/

lemma findProduct_pricingOk (pm : ProductMap)
    (hpm : pm.all (fun e => e.2.pricingOk) = true)
    (pid : ObjId) (p : Product) (h : findProduct pm pid = some p) :
    p.pricingOk = true := by
  induction pm with
  | nil => simp [findProduct] at h
  | cons e rest ih =>
    simp only [List.all_cons, Bool.and_eq_true] at hpm
    by_cases h1 : e.1 = pid
    · rw [findProduct, List.find?_cons_of_pos _ (by simp [h1])] at h
      simp only [Option.map_some'] at h
      injection h with h
      rw [← h]
      exact hpm.1
    · rw [findProduct, List.find?_cons_of_neg _ (by simp [h1])] at h
      exact ih hpm.2 h

lemma pricingOk_price {p : Product} (h : p.pricingOk = true) : 0 ≤ p.price := by
  simp only [Product.pricingOk, Bool.and_eq_true, decide_eq_true_eq] at h
  exact h.1

lemma pricingOk_gst {p : Product} (h : p.pricingOk = true) : 0 ≤ p.gst.getD 0 := by
  simp only [Product.pricingOk, Bool.and_eq_true] at h
  cases hg : p.gst with
  | none => simp
  | some g =>
    have h2 := h.2
    rw [hg] at h2
    simpa using h2

lemma buildOrderItems_nonneg (pm : ProductMap)
    (hpm : pm.all (fun e => e.2.pricingOk) = true) :
    ∀ (cart : List CartItem) (items : List OrderItem) (sub tax : ℚ),
      buildOrderItems pm cart = .ok (items, sub, tax) → 0 ≤ sub ∧ 0 ≤ tax := by
  intro cart
  induction cart with
  | nil =>
    intro items sub tax h
    simp only [buildOrderItems, Except.ok.injEq, Prod.mk.injEq] at h
    obtain ⟨-, hsub, htax⟩ := h
    exact ⟨hsub ▸ le_refl 0, htax ▸ le_refl 0⟩
  | cons it rest ih =>
    intro items sub tax h
    cases hf : findProduct pm it.product with
    | none =>
      simp only [buildOrderItems, hf] at h
      exact absurd h (by simp)
    | some p =>
      simp only [buildOrderItems, hf] at h
      by_cases hst : p.status ≠ "active"
      · simp [hst] at h
      · simp only [hst, if_false] at h
        by_cases hstk : p.stock < (it.quantity : ℤ)
        · simp [hstk] at h
        · simp only [hstk, if_false] at h
          cases hb : buildOrderItems pm rest with
          | error e =>
            simp only [hb] at h
            exact absurd h (by simp)
          | ok triple =>
            obtain ⟨items', sub', tax'⟩ := triple
            simp only [hb, Except.ok.injEq, Prod.mk.injEq] at h
            obtain ⟨-, hsub, htax⟩ := h
            obtain ⟨hs', ht'⟩ := ih items' sub' tax' hb
            have hp := findProduct_pricingOk pm hpm _ _ hf
            have hprice : (0:ℚ) ≤ p.price := pricingOk_price hp
            have hgst : (0:ℚ) ≤ p.gst.getD 0 := pricingOk_gst hp
            have hitem : (0:ℚ) ≤ p.price * (it.quantity : ℚ) :=
              mul_nonneg hprice (by positivity)
            constructor
            · rw [← hsub]; exact add_nonneg hitem hs'
            · rw [← htax]
              exact add_nonneg (div_nonneg (mul_nonneg hitem hgst) (by norm_num)) ht'

lemma calculateDiscount_le (c : Coupon) (a : ℚ) : c.calculateDiscount a ≤ a :=
  min_le_right _ _

lemma calculateDiscount_nonneg (c : Coupon) (a : ℚ) (hv : 0 ≤ c.value) (ha : 0 ≤ a)
    (hm : ∀ m, c.maximumDiscountAmount = some m → 0 ≤ m) :
    0 ≤ c.calculateDiscount a := by
  have hraw : (0:ℚ) ≤
      (if c.type = "percentage" then a * c.value / 100
       else if c.type = "fixed" then c.value else 0) := by
    split_ifs
    · positivity
    · exact hv
    · exact le_refl 0
  unfold Coupon.calculateDiscount
  refine le_min ?_ ha
  cases hmx : c.maximumDiscountAmount with
  | none => exact hraw
  | some m =>
    by_cases hcond : m ≠ 0 ∧ m <
        (if c.type = "percentage" then a * c.value / 100
         else if c.type = "fixed" then c.value else 0)
    · simpa [hcond] using hm m hmx
    · simpa [hcond] using hraw

/-- Success shape of the `createOrder` coupon phase. -/
lemma checkCoupon_ok (couponOpt : Option Coupon) (uid : ObjId) (sub : ℚ) (cnt : ℕ)
    (now : ℤ) (d : ℚ) (cd : Option OrderCoupon)
    (h : checkCoupon couponOpt uid sub cnt now = .ok (d, cd)) :
    (couponOpt = none → d = 0) ∧
    (∀ c, couponOpt = some c →
      c.isValidForUser uid sub cnt now = true ∧ d = c.calculateDiscount sub) := by
  cases couponOpt with
  | none =>
    simp only [checkCoupon, Except.ok.injEq, Prod.mk.injEq] at h
    exact ⟨fun _ => h.1.symm, fun c hc => by cases hc⟩
  | some c =>
    by_cases hv : c.isValidForUser uid sub cnt now = true
    · simp only [checkCoupon] at h
      rw [if_neg (by simp [hv])] at h
      simp only [Except.ok.injEq, Prod.mk.injEq] at h
      constructor
      · intro hc
        cases hc
      · intro c2 hc
        injection hc with hc
        subst hc
        exact ⟨hv, h.1.symm⟩
    · simp [checkCoupon, hv] at h

/-- Shape of a successful `createOrder`: the pricing block it writes, the
reservation it performs, the pending status, and the coupon commit. -/
lemma createOrder_ok (pm : ProductMap) (cart : List CartItem) (couponOpt : Option Coupon)
    (uid : ObjId) (cnt : ℕ) (pmeth smeth : String) (oid : ObjId) (now : ℤ) (r : CreateResult)
    (h : createOrder pm cart couponOpt uid cnt pmeth smeth oid now = .ok r) :
    ∃ items sub tax discount,
      buildOrderItems pm cart = .ok (items, sub, tax) ∧
      r.order.items = items ∧
      r.order.status = "pending" ∧
      r.order.pricing = ⟨sub, tax, 59, discount, sub - discount + 59 + tax⟩ ∧
      r.products = reserveStock items pm ∧
      r.coupon = couponOpt.map (fun c0 => redeemCommit c0 uid oid discount) ∧
      (couponOpt = none → discount = 0) ∧
      (∀ c, couponOpt = some c →
        c.isValidForUser uid sub cnt now = true ∧ discount = c.calculateDiscount sub) := by
  unfold createOrder at h
  cases hb : buildOrderItems pm cart with
  | error e =>
    rw [hb] at h
    exact absurd h (by simp)
  | ok triple =>
    obtain ⟨items, sub, tax⟩ := triple
    rw [hb] at h
    cases hc : checkCoupon couponOpt uid sub cnt now with
    | error e =>
      simp only [hc] at h
      exact absurd h (by simp)
    | ok pair =>
      obtain ⟨d, cd⟩ := pair
      simp only [hc, Except.ok.injEq] at h
      subst h
      obtain ⟨hnone, hsome⟩ := checkCoupon_ok couponOpt uid sub cnt now d cd hc
      exact ⟨items, sub, tax, d, rfl, rfl, rfl, rfl, rfl, rfl, hnone, hsome⟩

/-- Method `applyCoupon` never touches the pricing block of the order. -/
lemma applyCoupon_pricing (o : Order) (c : Coupon) (uid oid : ObjId) (s : ℚ) (cnt : ℕ)
    (now : ℤ) (o2 : Order) (c2 : Coupon)
    (h : applyCoupon o c uid oid s cnt now = .ok (o2, c2)) : o2.pricing = o.pricing := by
  unfold applyCoupon at h
  by_cases h1 : c.isActive = true
  · by_cases h2 : c.isValidForUser uid s cnt now = true
    · rw [if_neg (by simp [h1]), if_neg (by simp [h2])] at h
      simp only [Except.ok.injEq, Prod.mk.injEq] at h
      rw [← h.1]
    · rw [if_neg (by simp [h1]), if_pos (by simp [h2])] at h
      exact absurd h (by simp)
  · rw [if_pos (by simp [h1])] at h
    exact absurd h (by simp)

/-! Claim theorems. -/

/-- C1: for every order persisted by `createOrder` (under the `Product.js`
schema validators `price ≥ 0` and `gst ≥ 0`), the pricing block satisfies
`total = subtotal - discount + shipping + tax` and `total ≥ 0`; and the
post-creation `applyCoupon` leaves the pricing block unchanged, so the
invariant still holds after it. -/
theorem pricing_invariant_create_and_applyCoupon
    (pm : ProductMap) (cart : List CartItem) (couponOpt : Option Coupon)
    (uid : ObjId) (cnt : ℕ) (pmeth smeth : String) (oid : ObjId) (now : ℤ) (r : CreateResult)
    (hpm : pm.all (fun e => e.2.pricingOk) = true)
    (h : createOrder pm cart couponOpt uid cnt pmeth smeth oid now = .ok r) :
    (r.order.pricing.total =
      r.order.pricing.subtotal - r.order.pricing.discount + r.order.pricing.shipping
        + r.order.pricing.tax ∧ 0 ≤ r.order.pricing.total) ∧
    ∀ c uid2 oid2 s cnt2 now2 o2 c2,
      applyCoupon r.order c uid2 oid2 s cnt2 now2 = .ok (o2, c2) →
      o2.pricing.total =
        o2.pricing.subtotal - o2.pricing.discount + o2.pricing.shipping + o2.pricing.tax ∧
      0 ≤ o2.pricing.total := by
  obtain ⟨items, sub, tax, discount, hb, hitems, hst, hpr, hpm2, hcp, hnone, hsome⟩ :=
    createOrder_ok pm cart couponOpt uid cnt pmeth smeth oid now r h
  obtain ⟨hsub, htax⟩ := buildOrderItems_nonneg pm hpm cart items sub tax hb
  have hd_le : discount ≤ sub := by
    cases couponOpt with
    | none =>
      rw [hnone rfl]
      exact hsub
    | some c =>
      rw [(hsome c rfl).2]
      exact calculateDiscount_le c sub
  have htot : 0 ≤ sub - discount + 59 + tax := by linarith
  have hinv : r.order.pricing.total =
      r.order.pricing.subtotal - r.order.pricing.discount + r.order.pricing.shipping
        + r.order.pricing.tax ∧ 0 ≤ r.order.pricing.total := by
    rw [hpr]
    exact ⟨rfl, htot⟩
  refine ⟨hinv, ?_⟩
  intro c uid2 oid2 s cnt2 now2 o2 c2 hap
  have hpres := applyCoupon_pricing r.order c uid2 oid2 s cnt2 now2 o2 c2 hap
  rw [hpres]
  exact hinv

/-- Witness for C1 at a concrete one-line COD order over `pmW`. -/
theorem pricing_invariant_witness :
    ∃ r, createOrder pmW cartW none 7 0 "cod" "standard" 99 0 = Except.ok r ∧
      r.order.pricing.total =
        r.order.pricing.subtotal - r.order.pricing.discount + r.order.pricing.shipping
          + r.order.pricing.tax ∧ 0 ≤ r.order.pricing.total := by
  refine ⟨_, rfl, ?_⟩
  exact (pricing_invariant_create_and_applyCoupon pmW cartW none 7 0 "cod" "standard" 99 0 _
    (by decide) rfl).1

/-- C4: the create-then-cancel round trip restores every product's stock
and sold count to their values before creation. -/
theorem create_then_cancel_roundtrip
    (pm : ProductMap) (cart : List CartItem) (couponOpt : Option Coupon)
    (uid : ObjId) (cnt : ℕ) (pmeth smeth : String) (oid : ObjId) (now : ℤ) (r : CreateResult)
    (h : createOrder pm cart couponOpt uid cnt pmeth smeth oid now = .ok r)
    (reason : Option String) (rid : ObjId) (now2 : ℤ) (o2 : Order) (pm2 : ProductMap)
    (h2 : cancelOrder r.order r.products reason rid now2 = .ok (o2, pm2)) :
    ∀ pid, findProduct pm2 pid = findProduct pm pid := by
  obtain ⟨items, sub, tax, discount, hb, hitems, hst, hpr, hpm2, -, -, -⟩ :=
    createOrder_ok pm cart couponOpt uid cnt pmeth smeth oid now r h
  unfold cancelOrder at h2
  rw [if_neg (by rw [hst]; simp)] at h2
  simp only [Except.ok.injEq, Prod.mk.injEq] at h2
  obtain ⟨-, hpm3⟩ := h2
  intro pid
  rw [← hpm3]
  show findProduct (releaseStock r.order.items r.products) pid = findProduct pm pid
  rw [hitems, hpm2]
  exact findProduct_release_reserve items pm pid

/-- Witness for C4: create over `pmW`, cancel, and the one product's record
is restored for every id. -/
theorem create_then_cancel_roundtrip_witness :
    ∃ r, createOrder pmW cartW none 7 0 "cod" "standard" 99 0 = Except.ok r ∧
      ∃ o2 pm2, cancelOrder r.order r.products none 7 5 = Except.ok (o2, pm2) ∧
        ∀ pid, findProduct pm2 pid = findProduct pmW pid := by
  refine ⟨_, rfl, _, _, rfl, ?_⟩
  exact create_then_cancel_roundtrip pmW cartW none 7 0 "cod" "standard" 99 0 _ rfl
    none 7 5 _ _ rfl

/-- C2 (amended): `cancelOrder` rejects cancellation of an order whose
status is `shipped`, `delivered` or `cancelled` with the 400 error
(persisting nothing), but the order-controller `updateOrderStatus` applies
no transition guard: invoked with `cancelled` it sets the status whatever
the current one is. -/
theorem cancel_guard_and_unguarded_update
    (o : Order) (pm : ProductMap)
    (h : o.status = "shipped" ∨ o.status = "delivered" ∨ o.status = "cancelled") :
    (∀ reason rid now, cancelOrder o pm reason rid now =
      .error "Order cannot be cancelled at this stage") ∧
    (∀ note aid now,
      ((updateOrderStatus o pm "cancelled" note aid now).1).status = "cancelled") := by
  constructor
  · intro reason rid now
    unfold cancelOrder
    rw [if_pos h]
  · intro note aid now
    rfl

/-- Witness for C2 at a concrete delivered order. -/
theorem cancel_guard_witness :
    cancelOrder (mkOrderW "delivered" "razorpay" "processing") pmW none 7 5 =
      Except.error "Order cannot be cancelled at this stage" :=
  (cancel_guard_and_unguarded_update (mkOrderW "delivered" "razorpay" "processing") pmW
    (Or.inr (Or.inl rfl))).1 none 7 5

/-- C2 counterexample: the order-controller `updateOrderStatus` cancels a
`delivered` order — the attempt succeeds, the status changes to
`cancelled`, and the product collection is modified (stock released),
contradicting "fails and leaves the order unchanged". -/
theorem cancel_from_delivered_succeeds_counterexample :
    ((updateOrderStatus (mkOrderW "delivered" "razorpay" "processing") pmW "cancelled"
        none 9 5).1).status = "cancelled" ∧
    (mkOrderW "delivered" "razorpay" "processing").status = "delivered" ∧
    (updateOrderStatus (mkOrderW "delivered" "razorpay" "processing") pmW "cancelled"
        none 9 5).2 ≠ pmW := by
  refine ⟨rfl, rfl, ?_⟩
  decide

/-- C3 (amended): through `cancelOrder` the release cannot run twice (a
cancelled order fails the guard on any further `cancelOrder`), but the
order-controller `updateOrderStatus` releases the order's stock on every
invocation with status `cancelled`, whatever the current status, and the
payment-failure paths (`updatePaymentStatus "failed"` /
`handlePaymentFailure`) transition to `cancelled` without any release. -/
theorem stock_release_once_via_cancelOrder
    (o : Order) (pm : ProductMap) (reason : Option String) (rid : ObjId) (now : ℤ)
    (o1 : Order) (pm1 : ProductMap)
    (h : cancelOrder o pm reason rid now = .ok (o1, pm1)) :
    o1.status = "cancelled" ∧
    (∀ pm2 reason2 rid2 now2, cancelOrder o1 pm2 reason2 rid2 now2 =
      .error "Order cannot be cancelled at this stage") ∧
    (∀ o2 pm2 note aid now2, (updateOrderStatus o2 pm2 "cancelled" note aid now2).2 =
      releaseStock o2.items pm2) ∧
    (∀ o2 pm2 aid now2, (updatePaymentStatus o2 pm2 "failed" aid now2).2 = pm2) ∧
    (∀ o2 pm2 e uid now2, (handlePaymentFailure o2 pm2 e uid now2).2 = pm2) := by
  unfold cancelOrder at h
  by_cases hg : o.status = "shipped" ∨ o.status = "delivered" ∨ o.status = "cancelled"
  · rw [if_pos hg] at h
    exact absurd h (by simp)
  · rw [if_neg hg] at h
    simp only [Except.ok.injEq, Prod.mk.injEq] at h
    have hstat : o1.status = "cancelled" := by rw [← h.1]; rfl
    refine ⟨hstat, ?_, ?_, ?_, ?_⟩
    · intro pm2 reason2 rid2 now2
      unfold cancelOrder
      rw [if_pos (Or.inr (Or.inr hstat))]
    · intro o2 pm2 note aid now2
      rfl
    · intro o2 pm2 aid now2
      rfl
    · intro o2 pm2 e uid now2
      rfl

/-- Witness for C3 at a concrete pending order. -/
theorem stock_release_once_witness :
    ∃ o1 pm1, cancelOrder (mkOrderW "pending" "cod" "pending") pmW none 7 1 =
        Except.ok (o1, pm1) ∧
      cancelOrder o1 pm1 none 7 2 = Except.error "Order cannot be cancelled at this stage" := by
  refine ⟨_, _, rfl, ?_⟩
  exact (stock_release_once_via_cancelOrder (mkOrderW "pending" "cod" "pending") pmW
    none 7 1 _ _ rfl).2.1 _ none 7 2

/-- C3 counterexample: two consecutive order-controller
`updateOrderStatus … "cancelled"` calls on the same order release the stock
twice — the product goes from stock 5 / sold 0 to 7 / -2 and then 9 / -4,
although the second call starts from an already `cancelled` order. -/
theorem double_release_counterexample :
    ((updateOrderStatus (mkOrderW "pending" "cod" "pending") pmW "cancelled" none 9 1).1).status
        = "cancelled" ∧
    (findProduct (updateOrderStatus (mkOrderW "pending" "cod" "pending") pmW "cancelled"
        none 9 1).2 1).map Product.stock = some 7 ∧
    (findProduct (updateOrderStatus
        (updateOrderStatus (mkOrderW "pending" "cod" "pending") pmW "cancelled" none 9 1).1
        (updateOrderStatus (mkOrderW "pending" "cod" "pending") pmW "cancelled" none 9 1).2
        "cancelled" none 9 2).2 1).map Product.stock = some 9 := by
  decide

/-- C7 (amended): both payment-failure paths transition the order to
`cancelled` with a note citing the payment failure, but neither runs the
stock-release compensation: the product collection is returned untouched. -/
theorem payment_failure_cancels_without_release
    (o : Order) (pm : ProductMap) (e : String) (uid aid : ObjId) (now : ℤ) :
    ((handlePaymentFailure o pm e uid now).1.status = "cancelled" ∧
     (handlePaymentFailure o pm e uid now).1.payment.status = "failed" ∧
     (handlePaymentFailure o pm e uid now).1.statusHistory =
       o.statusHistory ++ [⟨"cancelled", some ("Payment failed: " ++ e), some uid, now⟩] ∧
     (handlePaymentFailure o pm e uid now).2 = pm) ∧
    ((updatePaymentStatus o pm "failed" aid now).1.status = "cancelled" ∧
     (updatePaymentStatus o pm "failed" aid now).1.statusHistory =
       o.statusHistory ++ [⟨"cancelled", some "Payment failed", some aid, now⟩] ∧
     (updatePaymentStatus o pm "failed" aid now).2 = pm) :=
  ⟨⟨rfl, rfl, rfl, rfl⟩, ⟨rfl, rfl, rfl⟩⟩

/-- C7 counterexample: after `handlePaymentFailure` on an order holding two
units of product 1, the order is `cancelled` but product 1's stock is still
5 — not the 7 the claimed stock-release compensation would produce. -/
theorem payment_failure_no_release_counterexample :
    (handlePaymentFailure (mkOrderW "processing" "razorpay" "processing") pmW
        "declined" 7 3).1.status = "cancelled" ∧
    (findProduct (handlePaymentFailure (mkOrderW "processing" "razorpay" "processing") pmW
        "declined" 7 3).2 1).map Product.stock = some 5 ∧
    ¬ ((findProduct (handlePaymentFailure (mkOrderW "processing" "razorpay" "processing") pmW
        "declined" 7 3).2 1).map Product.stock = some 7) := by
  decide

lemma sumOn_zero (items : List OrderItem) (pid : ObjId) :
    sumOn (fun _ => (0:ℤ)) items pid = 0 := by
  induction items with
  | nil => simp [sumOn]
  | cons it rest ih => by_cases hp : it.product = pid <;> simp [sumOn, hp, ih]

/-- C8 (amended): the order-controller `updateOrderStatus` on `delivered`
stamps `shipping.deliveredAt` and unconditionally marks the payment
completed with `paidAt`, whatever the payment method, touching no stock;
the admin-controller variant completes the payment only for a
not-yet-completed COD order and leaves `shipping` unchanged (no
`deliveredAt`), but decrements every line's stock a second time. -/
theorem delivered_transition_effects (o : Order) (pm : ProductMap)
    (note : Option String) (aid : ObjId) (now : ℤ) :
    ((updateOrderStatus o pm "delivered" note aid now).1.shippingInfo.deliveredAt = some now ∧
     (updateOrderStatus o pm "delivered" note aid now).1.payment.status = "completed" ∧
     (updateOrderStatus o pm "delivered" note aid now).1.payment.paidAt = some now ∧
     (updateOrderStatus o pm "delivered" note aid now).2 = pm) ∧
    ((adminUpdateOrderStatus o pm "delivered" note now).1.payment.status =
       (if o.payment.method = "cod" ∧ o.payment.status ≠ "completed"
        then "completed" else o.payment.status) ∧
     (adminUpdateOrderStatus o pm "delivered" note now).1.shippingInfo = o.shippingInfo ∧
     (∀ pid, findProduct (adminUpdateOrderStatus o pm "delivered" note now).2 pid =
       (findProduct pm pid).map
         (fun p => { p with stock := p.stock - lineQty o.items pid }))) := by
  refine ⟨⟨rfl, rfl, rfl, rfl⟩, ?_, ?_, ?_⟩
  · by_cases hc : o.payment.method = "cod" ∧ o.payment.status ≠ "completed"
    · simp [adminUpdateOrderStatus, hc]
    · simp [adminUpdateOrderStatus, hc]
  · by_cases hc : o.payment.method = "cod" ∧ o.payment.status ≠ "completed"
    · simp [adminUpdateOrderStatus, hc]
    · simp [adminUpdateOrderStatus, hc]
  · intro pid
    have h := findProduct_incFold (fun it => -((it.quantity : ℤ))) (fun _ => (0:ℤ)) o.items pm pid
    show findProduct
        (o.items.foldl (fun m it => incProduct m it.product (-(it.quantity : ℤ)) 0) pm) pid = _
    rw [h, sumOn_negQty, sumOn_zero]
    cases findProduct pm pid <;> simp [sub_eq_add_neg]

/-- C8 counterexample: a non-COD (razorpay) order moved to `delivered`
through the order-controller `updateOrderStatus` gets
`payment.status = "completed"` and a `paidAt` stamp — the claimed
"if and only if cash-on-delivery" fails. -/
theorem delivered_completes_noncod_counterexample :
    (mkOrderW "shipped" "razorpay" "processing").payment.method ≠ "cod" ∧
    ((updateOrderStatus (mkOrderW "shipped" "razorpay" "processing") pmW "delivered"
        none 9 4).1).payment.status = "completed" ∧
    ((updateOrderStatus (mkOrderW "shipped" "razorpay" "processing") pmW "delivered"
        none 9 4).1).payment.paidAt = some 4 := by
  refine ⟨by decide, rfl, rfl⟩

/-- C5 (amended): `usedCount = |usageHistory|` holds on a freshly created
coupon and is preserved by the checkout redemption commit of `createOrder`
and by `applyCoupon`; `updateCoupon`, which passes the request body through
wholesale, does not preserve it. -/
theorem usedCount_matches_usageHistory (c : Coupon) :
    (createCouponUsageState c).usedCount =
      ((createCouponUsageState c).usageHistory.length : ℤ) ∧
    (∀ u oid d, c.usedCount = (c.usageHistory.length : ℤ) →
      (redeemCommit c u oid d).usedCount =
        ((redeemCommit c u oid d).usageHistory.length : ℤ)) ∧
    (∀ pm cart uid cnt pmeth smeth oid now r,
      createOrder pm cart (some c) uid cnt pmeth smeth oid now = .ok r →
      c.usedCount = (c.usageHistory.length : ℤ) →
      ∀ c1, r.coupon = some c1 → c1.usedCount = (c1.usageHistory.length : ℤ)) ∧
    (∀ o uid oid s cnt now o2 c2, applyCoupon o c uid oid s cnt now = .ok (o2, c2) →
      c.usedCount = (c.usageHistory.length : ℤ) →
      c2.usedCount = (c2.usageHistory.length : ℤ)) := by
  have hred : ∀ u oid d, c.usedCount = (c.usageHistory.length : ℤ) →
      (redeemCommit c u oid d).usedCount =
        ((redeemCommit c u oid d).usageHistory.length : ℤ) := by
    intro u oid d hinv
    simp only [redeemCommit, List.length_append, List.length_cons, List.length_nil]
    push_cast
    omega
  refine ⟨by simp [createCouponUsageState], hred, ?_, ?_⟩
  · intro pm cart uid cnt pmeth smeth oid now r hco hinv c1 hc1
    obtain ⟨items, sub, tax, d, -, -, -, -, -, hcp, -, -⟩ :=
      createOrder_ok pm cart (some c) uid cnt pmeth smeth oid now r hco
    rw [hcp] at hc1
    simp only [Option.map_some'] at hc1
    injection hc1 with hc1
    rw [← hc1]
    exact hred uid oid d hinv
  · intro o uid oid s cnt now o2 c2 hap hinv
    unfold applyCoupon at hap
    by_cases h1 : c.isActive = true
    · by_cases h2 : c.isValidForUser uid s cnt now = true
      · rw [if_neg (by simp [h1]), if_neg (by simp [h2])] at hap
        simp only [Except.ok.injEq, Prod.mk.injEq] at hap
        rw [← hap.2]
        exact hred uid oid _ hinv
      · rw [if_neg (by simp [h1]), if_pos (by simp [h2])] at hap
        exact absurd hap (by simp)
    · rw [if_pos (by simp [h1])] at hap
      exact absurd hap (by simp)

/-- Witness for C5: the redemption commit preserves the invariant on the
concrete coupon `cpnW`. -/
theorem usedCount_matches_usageHistory_witness :
    (redeemCommit cpnW 7 50 10).usedCount =
      ((redeemCommit cpnW 7 50 10).usageHistory.length : ℤ) :=
  (usedCount_matches_usageHistory cpnW).2.1 7 50 10 (by decide)

/-- C5 counterexample: an admin `updateCoupon` whose request body carries
`usedCount = 5` sets it on a coupon with an empty usage history, breaking
`usedCount = |usageHistory|` immediately after the update. -/
theorem updateCoupon_breaks_usage_invariant_counterexample :
    (updateCoupon cpnW { usedCount := some 5 }).usedCount = 5 ∧
    ((updateCoupon cpnW { usedCount := some 5 }).usageHistory.length : ℤ) = 0 ∧
    (5:ℤ) ≠ 0 := by
  refine ⟨rfl, rfl, by decide⟩

/-- C6: the eligibility read (`isValidForUser`, which compares `usedCount`
with `usageLimit`) and the usage commit (`findOneAndUpdate` filtered only
on the code, incrementing unconditionally) are separate steps.  In the
interleaving `schedW`, both requests of `reqsW` (M = 2) validate against
`cpnW` (usage limit N = 1) before either commits: both succeed and
`usedCount` ends at 2 > N, so the check and the increment do not behave as
one atomic conditional step. -/
theorem coupon_redemption_race :
    cpnW.usageLimit = some 1 ∧
    (runSchedule reqsW 10 cpnW schedW).succeeded.length = 2 ∧
    (runSchedule reqsW 10 cpnW schedW).coupon.usedCount = 2 := by
  refine ⟨rfl, ?_, ?_⟩ <;> decide

/-- C9 (amended): with `value ≥ 0`, `cartTotal ≥ 0`, and
`maximumDiscountAmount` unset or nonnegative, the discount lies in
`[0, cartTotal]`; the raw value is `cartTotal * value / 100` (percentage)
or `value` (fixed), clamped by `maximumDiscountAmount` only when that field
is present and nonzero, then by the cart total.  A truthy negative
`maximumDiscountAmount` is written through and makes the result
negative. -/
theorem calculateDiscount_range (c : Coupon) (a : ℚ) (hv : 0 ≤ c.value) (ha : 0 ≤ a)
    (hm : ∀ m, c.maximumDiscountAmount = some m → 0 ≤ m) :
    0 ≤ c.calculateDiscount a ∧ c.calculateDiscount a ≤ a :=
  ⟨calculateDiscount_nonneg c a hv ha hm, calculateDiscount_le c a⟩

/-- Witness for C9 at the concrete 10 % coupon and a cart total of 50. -/
theorem calculateDiscount_range_witness :
    0 ≤ cpnW.value ∧ 0 ≤ (50:ℚ) ∧
    0 ≤ cpnW.calculateDiscount 50 ∧ cpnW.calculateDiscount 50 ≤ 50 := by
  have h := calculateDiscount_range cpnW 50 (by decide) (by decide)
    (fun m hm => by simp [cpnW] at hm)
  exact ⟨by decide, by decide, h.1, h.2⟩

/-- C9 counterexample: a percentage coupon with `value = 10 ≥ 0` and
`maximumDiscountAmount = -5` on a cart total of `100 ≥ 0` returns the
discount `-5`, which is negative — the claimed range `[0, cartTotal]`
fails. -/
theorem calculateDiscount_negative_counterexample :
    (0:ℚ) ≤ cpnNegMax.value ∧
    cpnNegMax.calculateDiscount 100 = -5 ∧
    ¬ (0 ≤ cpnNegMax.calculateDiscount 100) := by
  have hval : cpnNegMax.calculateDiscount 100 = -5 := by
    norm_num [Coupon.calculateDiscount, cpnNegMax, cpnW]
  refine ⟨by norm_num [cpnNegMax, cpnW], hval, ?_⟩
  rw [hval]
  norm_num

/-- C10 (amended): in the standalone `validateCoupon` endpoint, any cart
product hit by an exclusion list always yields a validation error,
whatever the inclusion lists match; with a non-empty inclusion list the
scan passes exactly when some cart product matches `applicableProducts` or
its category matches `applicableCategories` (inclusive union).  The
checkout-time check of `createOrder` is `isValidForUser`, whose value does
not depend on any of the four restriction lists — it performs no exclusion
or inclusion scoping at all. -/
theorem restriction_scoping (c : Coupon) (cart : List CartProduct) (p : CartProduct) :
    (p ∈ cart → p.product ∈ c.excludedProducts ∨ p.category ∈ c.excludedCategories →
      restrictionErrors c cart ≠ []) ∧
    ((¬ c.applicableProducts.isEmpty ∨ ¬ c.applicableCategories.isEmpty) →
      (applicableErrors c cart = [] ↔
        ∃ q ∈ cart,
          (¬ c.applicableProducts.isEmpty ∧ q.product ∈ c.applicableProducts) ∨
          (¬ c.applicableCategories.isEmpty ∧ q.category ∈ c.applicableCategories))) ∧
    (∀ ap ac ep ec uid s cnt now,
      Coupon.isValidForUser
        { c with applicableProducts := ap, applicableCategories := ac,
                 excludedProducts := ep, excludedCategories := ec } uid s cnt now =
      c.isValidForUser uid s cnt now) := by
  refine ⟨?_, ?_, ?_⟩
  · intro hmem hex
    have hne : excludedErrors c cart ≠ [] := by
      unfold excludedErrors
      have hnonempty : ¬ c.excludedProducts.isEmpty ∨ ¬ c.excludedCategories.isEmpty := by
        cases hex with
        | inl hx =>
          left
          intro hemp
          rw [List.isEmpty_iff] at hemp
          rw [hemp] at hx
          cases hx
        | inr hx =>
          right
          intro hemp
          rw [List.isEmpty_iff] at hemp
          rw [hemp] at hx
          cases hx
      rw [if_pos hnonempty]
      have hany : cart.any (fun q => c.excludedProducts.contains q.product ||
          c.excludedCategories.contains q.category) = true := by
        rw [List.any_eq_true]
        refine ⟨p, hmem, ?_⟩
        cases hex with
        | inl hx => simp [hx]
        | inr hx => simp [hx]
      rw [if_pos hany]
      simp
    intro hc
    rw [restrictionErrors] at hc
    exact hne (List.append_eq_nil.mp hc).2
  · intro hinc
    unfold applicableErrors
    rw [if_pos hinc]
    by_cases hany : cart.any (fun q =>
        (!c.applicableProducts.isEmpty && c.applicableProducts.contains q.product) ||
        (!c.applicableCategories.isEmpty && c.applicableCategories.contains q.category)) = true
    · rw [if_pos hany]
      rw [List.any_eq_true] at hany
      obtain ⟨q, hq, hql⟩ := hany
      constructor
      · intro _
        refine ⟨q, hq, ?_⟩
        simpa [List.contains, List.elem_iff] using hql
      · intro _
        rfl
    · rw [if_neg hany]
      constructor
      · intro hc
        cases hc
      · intro hex
        exfalso
        apply hany
        rw [List.any_eq_true]
        obtain ⟨q, hq, hql⟩ := hex
        refine ⟨q, hq, ?_⟩
        simpa [List.contains, List.elem_iff] using hql
  · intro ap ac ep ec uid s cnt now
    rfl

/-- Witness for C10: a coupon that both includes and excludes product 1
still rejects a cart holding product 1 at the validate endpoint. -/
theorem restriction_scoping_witness :
    restrictionErrors cpnInclExcl [⟨1, 100⟩] ≠ [] :=
  (restriction_scoping cpnInclExcl [⟨1, 100⟩] ⟨1, 100⟩).1 (by decide)
    (Or.inl (by decide))

/-- C10 counterexample: a coupon excluding product 1 is rejected by the
validate endpoint for a cart holding product 1, yet the checkout-time check
accepts it and `createOrder` redeems it on that very cart — the claimed
exclusion enforcement at checkout does not exist. -/
theorem checkout_ignores_exclusions_counterexample :
    restrictionErrors cpnExcl [⟨1, 100⟩] ≠ [] ∧
    cpnExcl.isValidForUser 7 20 0 1 = true ∧
    ∃ d cd, checkCoupon (some cpnExcl) 7 20 0 1 = Except.ok (d, cd) := by
  refine ⟨by decide, by decide,
    cpnExcl.calculateDiscount 20,
    some ⟨cpnExcl.code, some (cpnExcl.calculateDiscount 20), some cpnExcl.type⟩, ?_⟩
  simp only [checkCoupon]
  rw [if_neg (by decide)]

end Creed
